import Mathlib

/-!
Shallow embedding of the NIC.ar domain checker (src/nicar_domain_check.py).

The external registry is modelled as an oracle assigning a page outcome to
each (name, zone) pair; the SQLite table is a list of rows with unique
(domain, zone) keys; timestamps are natural numbers counting seconds; the
background queue is a FIFO list inside the system state.  The endpoint and
the queue worker are translated as state-passing functions, and an explicit
fetch counter records every invocation of the external check.
-/

namespace NicarCheck

instance {ε α : Type} [DecidableEq ε] [DecidableEq α] : DecidableEq (Except ε α) := fun a b =>
  match a, b with
  | .error x, .error y =>
      if h : x = y then isTrue (by rw [h])
      else isFalse (by intro hc; cases hc; exact h rfl)
  | .error _, .ok _ => isFalse (by intro hc; cases hc)
  | .ok _, .error _ => isFalse (by intro hc; cases hc)
  | .ok x, .ok y =>
      if h : x = y then isTrue (by rw [h])
      else isFalse (by intro hc; cases hc; exact h rfl)

/-- Suffix test on strings, by code points, as Python str.endswith. -/
def strEndsWith (s suffix : String) : Bool :=
  suffix.data.isSuffixOf s.data

/-- First n code points of a string, as a Python slice s[:n]. -/
def strTake (s : String) (n : Nat) : String :=
  ⟨s.data.take n⟩

/-- Possible outcomes of fetching the registry page for a domain:
the page shows the available div, the registered div (with the owner
fields scraped from the table), neither div (classification failure),
or the HTTP transport fails. -/
inductive FetchOutcome
  | available
  | registered (owner document_id registration_date expiration_date : Option String)
  | classifyFail
  | transportFail
deriving DecidableEq, Repr

/-- Mirror of the Python dataclass DomainInfo. -/
structure DomainInfo where
  domain : String
  zone : String
  status : String
  owner : Option String := none
  document_id : Option String := none
  registration_date : Option String := none
  expiration_date : Option String := none
deriving DecidableEq, Repr

/-- Mirror of check_domain: classifies the fetched page.  The info record
starts with status "unknown", but the branch where neither div is found
raises, so the function either returns an available/registered record or
fails with an error message; "unknown" is never returned. -/
def check_domain (domain zone : String) (page : FetchOutcome) : Except String DomainInfo :=
  match page with
  | .available => .ok { domain := domain, zone := zone, status := "available" }
  | .registered o d r e =>
      .ok { domain := domain, zone := zone, status := "registered",
            owner := o, document_id := d, registration_date := r, expiration_date := e }
  | .classifyFail =>
      .error "Error verificando dominio: No se pudo determinar si el dominio está disponible"
  | .transportFail =>
      .error "Error de conexión con NIC.ar"

/-- One row of the domain_checks table. -/
structure DomainRow where
  domain : String
  zone : String
  status : String
  owner : Option String
  document_id : Option String
  registration_date : Option String
  expiration_date : Option String
  check_date : Nat
deriving DecidableEq, Repr

/-- The WHERE domain = ? AND zone = ? filter. -/
def rowKeyMatches (domain zone : String) (r : DomainRow) : Bool :=
  r.domain == domain && r.zone == zone

/-- Mirror of save_to_db: INSERT ... ON CONFLICT(domain, zone) DO UPDATE,
stamping the row with the write-time clock. -/
def save_to_db (db : List DomainRow) (info : DomainInfo) (now : Nat) : List DomainRow :=
  let r : DomainRow :=
    ⟨info.domain, info.zone, info.status, info.owner, info.document_id,
     info.registration_date, info.expiration_date, now⟩
  if db.any (rowKeyMatches info.domain info.zone) then
    db.map (fun x => if rowKeyMatches info.domain info.zone x then r else x)
  else
    db ++ [r]

/-- Mirror of get_from_db: SELECT the row for the key; any database
exception is caught and turned into None (the readFails flag models a
failing read). -/
def get_from_db (db : List DomainRow) (readFails : Bool) (domain zone : String) :
    Option DomainRow :=
  if readFails then none
  else db.find? (rowKeyMatches domain zone)

/-- The UPDATE domain_checks SET check_date = ? WHERE domain = ? AND zone = ?
statement run by the worker when the row is still fresh. -/
def renew_check_date (db : List DomainRow) (domain zone : String) (now : Nat) :
    List DomainRow :=
  db.map (fun x => if rowKeyMatches domain zone x then { x with check_date := now } else x)

/-- Stable insertion into a list sorted by descending key, keeping earlier
elements first among equal keys (as Python sorted and SQLite ORDER BY do). -/
def insertKeyDesc (key : α → Nat) (x : α) : List α → List α
  | [] => [x]
  | y :: ys => if key y ≤ key x then x :: y :: ys else y :: insertKeyDesc key x ys

/-- Stable sort by descending key: sorted(l, key=key, reverse=True). -/
def sortKeyDesc (key : α → Nat) : List α → List α
  | [] => []
  | x :: xs => insertKeyDesc key x (sortKeyDesc key xs)

/-- The list of valid zones hard-coded in check_domain_endpoint. -/
def valid_zones : List String :=
  [".ar", ".com.ar", ".net.ar", ".gob.ar", ".int.ar", ".mil.ar",
   ".musica.ar", ".org.ar", ".tur.ar", ".seg.ar", ".senasa.ar",
   ".coop.ar", ".mutual.ar", ".bet.ar"]

/-- Python slice domain[:-len(z)]: drops the last len(z) characters, except
that a zero-length suffix yields the empty string (domain[:-0] is domain[:0]). -/
def pyStripSuffix (domain z : String) : String :=
  if z.length = 0 then "" else strTake domain (domain.length - z.length)

/-- The zone-detection loop of check_domain_endpoint: scan the zones in
descending length order and return (name with suffix stripped, zone) for the
first zone that is a suffix of the domain. -/
def resolveSuffix (zones : List String) (domain : String) : Option (String × String) :=
  match (sortKeyDesc String.length zones).find? (fun z => strEndsWith domain z) with
  | some z => some (pyStripSuffix domain z, z)
  | none => none

/-- Determination of (final_domain, final_zone): a zone detected as a suffix
wins over the query parameter; otherwise the parameter is used as given;
otherwise the default zone .com.ar. -/
def resolveZone (domain : String) (zone : Option String) : String × String :=
  match resolveSuffix valid_zones domain with
  | some (name, dz) => (name, dz)
  | none =>
      match zone with
      | some z => (domain, z)
      | none => (domain, ".com.ar")

/-- The two HTTP 400 rejections of check_domain_endpoint. -/
inductive LookupError
  | invalidDomain
  | invalidZone
deriving DecidableEq, Repr

/-- Input validation of check_domain_endpoint: the resolved name must have
at least 3 characters and the resolved zone must be valid; the name check
runs first. -/
def validateLookup (domain : String) (zone : Option String) :
    Except LookupError (String × String) :=
  let fd := (resolveZone domain zone).1
  let fz := (resolveZone domain zone).2
  if fd.length < 3 then .error .invalidDomain
  else if fz ∈ valid_zones then .ok (fd, fz)
  else .error .invalidZone

/-- The JSON response shape: details is an association list that is empty
unless the status is registered. -/
structure DomainResponse where
  domain : String
  zone : String
  status : String
  details : List (String × Option String)
  check_date : Nat
deriving DecidableEq, Repr

/-- The details dictionary built by the endpoint and the history route. -/
def mkDetails (status : String) (owner document_id registration_date expiration_date :
    Option String) : List (String × Option String) :=
  if status = "registered" then
    [("owner", owner), ("document_id", document_id),
     ("registration_date", registration_date), ("expiration_date", expiration_date)]
  else []

/-- Formatting of a stored row into a response. -/
def responseOfRow (r : DomainRow) : DomainResponse :=
  ⟨r.domain, r.zone, r.status,
   mkDetails r.status r.owner r.document_id r.registration_date r.expiration_date,
   r.check_date⟩

/-- What a call to the check endpoint can produce: a JSON record, an
HTTP 400 validation rejection, or an HTTP 500 from a failed check. -/
inductive LookupResult
  | response (r : DomainResponse)
  | clientError (e : LookupError)
  | serverError (msg : String)
deriving DecidableEq, Repr

/-- Observable state of the service: the database rows, the FIFO request
queue, a counter of external check invocations, and a flag making database
reads fail (to model a storage error). -/
structure SysState where
  db : List DomainRow
  queue : List (String × String)
  fetchCount : Nat
  readFails : Bool
deriving DecidableEq, Repr

/-- Mirror of queue_domain_check: append the key to the request queue. -/
def queue_domain_check (s : SysState) (domain zone : String) : SysState :=
  { s with queue := s.queue ++ [(domain, zone)] }

/-- Mirror of check_domain_endpoint after validation: read the store; on a
miss or a stale row enqueue a background check; on a miss additionally run
the external check synchronously (counting the fetch), save the result and
answer with it, or answer HTTP 500 if the check fails; on a hit answer with
the stored row. -/
def check_domain_endpoint (oracle : String → String → FetchOutcome) (now : Nat)
    (s : SysState) (domain : String) (zone : Option String) :
    LookupResult × SysState :=
  match validateLookup domain zone with
  | .error e => (.clientError e, s)
  | .ok (fd, fz) =>
      let db_result := get_from_db s.db s.readFails fd fz
      let s1 :=
        match db_result with
        | none => queue_domain_check s fd fz
        | some r => if now - r.check_date > 3600 then queue_domain_check s fd fz else s
      match db_result with
      | none =>
          let s2 := { s1 with fetchCount := s1.fetchCount + 1 }
          match check_domain fd fz (oracle fd fz) with
          | .ok info =>
              (.response ⟨fd, fz, info.status,
                 mkDetails info.status info.owner info.document_id
                   info.registration_date info.expiration_date, now⟩,
               { s2 with db := save_to_db s2.db info now })
          | .error msg => (.serverError msg, s2)
      | some r => (.response (responseOfRow r), s1)

/-- The fetch-and-save tail of one worker iteration: call the external check
(counting the fetch); on success upsert the row, on failure catch the
exception and leave the database unchanged. -/
def workerFetch (oracle : String → String → FetchOutcome) (now : Nat)
    (s : SysState) (domain zone : String) : SysState :=
  let s1 := { s with fetchCount := s.fetchCount + 1 }
  match check_domain domain zone (oracle domain zone) with
  | .ok info => { s1 with db := save_to_db s1.db info now }
  | .error _ => s1

/-- One iteration of process_queue_worker: pop the next key; if its row is
still fresh (age under 3600 seconds) only renew check_date, otherwise
re-check against the registry and write the result back. -/
def process_queue_worker_step (oracle : String → String → FetchOutcome) (now : Nat)
    (s : SysState) : SysState :=
  match s.queue with
  | [] => s
  | (domain, zone) :: rest =>
      let s0 := { s with queue := rest }
      match get_from_db s0.db s0.readFails domain zone with
      | some existing =>
          if now - existing.check_date < 3600 then
            { s0 with db := renew_check_date s0.db domain zone now }
          else
            workerFetch oracle now s0 domain zone
      | none => workerFetch oracle now s0 domain zone

/-- Mirror of get_domain_history: SELECT * ORDER BY check_date DESC LIMIT 100,
with any database exception caught and turned into an empty list. -/
def get_domain_history (db : List DomainRow) (readFails : Bool) : List DomainRow :=
  if readFails then [] else (sortKeyDesc DomainRow.check_date db).take 100

/-- Mirror of the history route: format each stored row. -/
def get_history (db : List DomainRow) (readFails : Bool) : List DomainResponse :=
  (get_domain_history db readFails).map responseOfRow

/-- The two-calls-around-one-worker-pass scenario: a first endpoint call at
time now1, one worker iteration at time noww, then a second endpoint call at
time now2, returning the second response and the final state. -/
def twoLookups (oracle : String → String → FetchOutcome) (now1 noww now2 : Nat)
    (s : SysState) (domain : String) (zone : Option String) :
    LookupResult × SysState :=
  check_domain_endpoint oracle now2
    (process_queue_worker_step oracle noww
      (check_domain_endpoint oracle now1 s domain zone).2)
    domain zone

/-! ### Sorting lemmas -/

theorem mem_insertKeyDesc {α : Type} (key : α → Nat) (x a : α) (l : List α) :
    a ∈ insertKeyDesc key x l ↔ a = x ∨ a ∈ l := by
  induction l with
  | nil => simp [insertKeyDesc]
  | cons y ys ih =>
      simp only [insertKeyDesc]
      split
      · exact List.mem_cons
      · rw [List.mem_cons, ih, List.mem_cons]
        tauto

theorem length_insertKeyDesc {α : Type} (key : α → Nat) (x : α) (l : List α) :
    (insertKeyDesc key x l).length = l.length + 1 := by
  induction l with
  | nil => rfl
  | cons y ys ih =>
      simp only [insertKeyDesc]
      split
      · rfl
      · simp [ih]

theorem pairwise_insertKeyDesc {α : Type} (key : α → Nat) (x : α) (l : List α)
    (h : l.Pairwise (fun a b => key b ≤ key a)) :
    (insertKeyDesc key x l).Pairwise (fun a b => key b ≤ key a) := by
  induction l with
  | nil => simp [insertKeyDesc]
  | cons y ys ih =>
      rcases List.pairwise_cons.mp h with ⟨hy, hys⟩
      simp only [insertKeyDesc]
      split
      · rename_i hle
        refine List.pairwise_cons.mpr ⟨?_, h⟩
        intro b hb
        rcases List.mem_cons.mp hb with hb | hb
        · exact hb ▸ hle
        · exact le_trans (hy b hb) hle
      · rename_i hgt
        push_neg at hgt
        refine List.pairwise_cons.mpr ⟨?_, ih hys⟩
        intro b hb
        rcases (mem_insertKeyDesc key x b ys).mp hb with hb | hb
        · exact hb ▸ le_of_lt hgt
        · exact hy b hb

theorem mem_sortKeyDesc {α : Type} (key : α → Nat) (a : α) (l : List α) :
    a ∈ sortKeyDesc key l ↔ a ∈ l := by
  induction l with
  | nil => simp [sortKeyDesc]
  | cons y ys ih =>
      simp [sortKeyDesc, mem_insertKeyDesc, ih, List.mem_cons]

theorem length_sortKeyDesc {α : Type} (key : α → Nat) (l : List α) :
    (sortKeyDesc key l).length = l.length := by
  induction l with
  | nil => rfl
  | cons y ys ih => simp [sortKeyDesc, length_insertKeyDesc, ih]

theorem pairwise_sortKeyDesc {α : Type} (key : α → Nat) (l : List α) :
    (sortKeyDesc key l).Pairwise (fun a b => key b ≤ key a) := by
  induction l with
  | nil => simp [sortKeyDesc]
  | cons y ys ih => exact pairwise_insertKeyDesc key y _ ih

theorem find?_max_key {α : Type} (key : α → Nat) (l : List α)
    (hs : l.Pairwise (fun a b => key b ≤ key a))
    (p : α → Bool) (z : α) (hf : l.find? p = some z) :
    ∀ x ∈ l, p x = true → key x ≤ key z := by
  induction l with
  | nil => simp at hf
  | cons y ys ih =>
      rcases List.pairwise_cons.mp hs with ⟨hy, hys⟩
      intro x hx hpx
      by_cases hpy : p y = true
      · rw [List.find?_cons_of_pos _ hpy] at hf
        cases hf
        rcases List.mem_cons.mp hx with hx | hx
        · exact hx ▸ le_refl _
        · exact hy x hx
      · rw [List.find?_cons_of_neg _ (by simp [hpy])] at hf
        rcases List.mem_cons.mp hx with hx | hx
        · exact absurd (hx ▸ hpx) hpy
        · exact ih hys hf x hx hpx

/-! ### Store lemmas -/

theorem find?_append_singleton {α : Type} {p : α → Bool} {l : List α}
    (h : l.find? p = none) (r : α) (hr : p r = true) :
    (l ++ [r]).find? p = some r := by
  induction l with
  | nil => simp [List.find?, hr]
  | cons y ys ih =>
      rw [List.find?_eq_none] at h
      have hy : ¬ p y = true := h y (List.mem_cons_self y ys)
      have hys : ys.find? p = none := List.find?_eq_none.mpr fun x hx => h x (List.mem_cons_of_mem y hx)
      simp only [List.cons_append]
      rw [List.find?_cons_of_neg _ (by simp [hy])]
      exact ih hys

/-- The row written by save_to_db for a DomainInfo. -/
def rowOfInfo (info : DomainInfo) (now : Nat) : DomainRow :=
  ⟨info.domain, info.zone, info.status, info.owner, info.document_id,
   info.registration_date, info.expiration_date, now⟩

theorem rowKeyMatches_self (info : DomainInfo) (now : Nat) :
    rowKeyMatches info.domain info.zone (rowOfInfo info now) = true := by
  simp [rowKeyMatches, rowOfInfo]

theorem save_to_db_of_miss (db : List DomainRow) (info : DomainInfo) (now : Nat)
    (h : db.find? (rowKeyMatches info.domain info.zone) = none) :
    save_to_db db info now = db ++ [rowOfInfo info now] := by
  have hany : db.any (rowKeyMatches info.domain info.zone) = false := by
    rw [List.find?_eq_none] at h
    simp only [List.any_eq_false]
    exact fun x hx => by simpa using h x hx
  simp [save_to_db, hany, rowOfInfo]

theorem get_after_save (db : List DomainRow) (info : DomainInfo) (now : Nat)
    (h : db.find? (rowKeyMatches info.domain info.zone) = none) :
    get_from_db (save_to_db db info now) false info.domain info.zone =
      some (rowOfInfo info now) := by
  rw [get_from_db, if_neg (by simp), save_to_db_of_miss db info now h]
  exact find?_append_singleton h _ (rowKeyMatches_self info now)

theorem rowKeyMatches_set_date (dom zn : String) (x : DomainRow) (now : Nat) :
    rowKeyMatches dom zn { x with check_date := now } = rowKeyMatches dom zn x := by
  simp [rowKeyMatches]

theorem find?_renew (db : List DomainRow) (dom zn : String) (now : Nat) :
    (renew_check_date db dom zn now).find? (rowKeyMatches dom zn) =
      (db.find? (rowKeyMatches dom zn)).map (fun r => { r with check_date := now }) := by
  induction db with
  | nil => rfl
  | cons x xs ih =>
      by_cases hx : rowKeyMatches dom zn x = true
      · simp only [renew_check_date, List.map_cons, if_pos hx]
        rw [List.find?_cons_of_pos _ (by rw [rowKeyMatches_set_date]; exact hx),
          List.find?_cons_of_pos _ hx]
        rfl
      · simp only [renew_check_date, List.map_cons, if_neg hx]
        rw [List.find?_cons_of_neg _ (by simp [hx]), List.find?_cons_of_neg _ (by simp [hx])]
        exact ih

theorem check_domain_ok_key (d z : String) (p : FetchOutcome) (info : DomainInfo)
    (h : check_domain d z p = .ok info) : info.domain = d ∧ info.zone = z := by
  cases p <;> simp only [check_domain] at h
  · cases h
    exact ⟨rfl, rfl⟩
  · cases h
    exact ⟨rfl, rfl⟩
  · exact Except.noConfusion h
  · exact Except.noConfusion h

/-! ### Endpoint and worker path lemmas -/

theorem endpoint_invalid (oracle : String → String → FetchOutcome) (now : Nat)
    (s : SysState) (d : String) (z : Option String) (e : LookupError)
    (hval : validateLookup d z = .error e) :
    check_domain_endpoint oracle now s d z = (.clientError e, s) := by
  unfold check_domain_endpoint
  rw [hval]

theorem endpoint_hit (oracle : String → String → FetchOutcome) (now : Nat)
    (s : SysState) (d : String) (z : Option String) (fd fz : String) (r : DomainRow)
    (hval : validateLookup d z = .ok (fd, fz))
    (hget : get_from_db s.db s.readFails fd fz = some r) :
    check_domain_endpoint oracle now s d z =
      (.response (responseOfRow r),
       if now - r.check_date > 3600 then queue_domain_check s fd fz else s) := by
  unfold check_domain_endpoint
  rw [hval]
  simp only [hget]

theorem endpoint_miss_ok (oracle : String → String → FetchOutcome) (now : Nat)
    (s : SysState) (d : String) (z : Option String) (fd fz : String) (info : DomainInfo)
    (hval : validateLookup d z = .ok (fd, fz))
    (hmiss : get_from_db s.db s.readFails fd fz = none)
    (hok : check_domain fd fz (oracle fd fz) = .ok info) :
    check_domain_endpoint oracle now s d z =
      (.response ⟨fd, fz, info.status,
         mkDetails info.status info.owner info.document_id info.registration_date
           info.expiration_date, now⟩,
       ⟨save_to_db s.db info now, s.queue ++ [(fd, fz)], s.fetchCount + 1, s.readFails⟩) := by
  unfold check_domain_endpoint
  rw [hval]
  simp only [hmiss, hok, queue_domain_check]

theorem endpoint_miss_err (oracle : String → String → FetchOutcome) (now : Nat)
    (s : SysState) (d : String) (z : Option String) (fd fz : String) (msg : String)
    (hval : validateLookup d z = .ok (fd, fz))
    (hmiss : get_from_db s.db s.readFails fd fz = none)
    (herr : check_domain fd fz (oracle fd fz) = .error msg) :
    check_domain_endpoint oracle now s d z =
      (.serverError msg,
       ⟨s.db, s.queue ++ [(fd, fz)], s.fetchCount + 1, s.readFails⟩) := by
  unfold check_domain_endpoint
  rw [hval]
  simp only [hmiss, herr, queue_domain_check]

theorem worker_step_fresh (oracle : String → String → FetchOutcome) (now : Nat)
    (s : SysState) (d z : String) (rest : List (String × String)) (r : DomainRow)
    (hq : s.queue = (d, z) :: rest)
    (hget : get_from_db s.db s.readFails d z = some r)
    (hfresh : now - r.check_date < 3600) :
    process_queue_worker_step oracle now s =
      ⟨renew_check_date s.db d z now, rest, s.fetchCount, s.readFails⟩ := by
  unfold process_queue_worker_step
  rw [hq]
  simp only [hget, if_pos hfresh]

theorem worker_step_miss_err (oracle : String → String → FetchOutcome) (now : Nat)
    (s : SysState) (d z : String) (rest : List (String × String)) (msg : String)
    (hq : s.queue = (d, z) :: rest)
    (hmiss : get_from_db s.db s.readFails d z = none)
    (herr : check_domain d z (oracle d z) = .error msg) :
    process_queue_worker_step oracle now s = ⟨s.db, rest, s.fetchCount + 1, s.readFails⟩ := by
  unfold process_queue_worker_step
  rw [hq]
  simp only [hmiss, workerFetch, herr]

/-! ### Claim theorems -/

/-- C10: the history operation never fails as observed by the caller: when
the record-store read fails, both the raw query and the formatted route
return an empty list instead of propagating an error. -/
theorem history_read_failure_returns_empty (db : List DomainRow) :
    get_domain_history db true = [] ∧ get_history db true = [] :=
  ⟨rfl, rfl⟩

/-- C9: for every store state, history returns min 100 (number of rows)
records, hence at most 100, ordered by descending check_date; in particular
a store holding at least 150 rows (150 distinct keys, one row per key by
upsert) yields exactly 100 records. -/
theorem history_bounded_and_sorted (db : List DomainRow) :
    (get_domain_history db false).length = min 100 db.length ∧
    (get_domain_history db false).Pairwise (fun a b => b.check_date ≤ a.check_date) ∧
    (150 ≤ db.length → (get_domain_history db false).length = 100) := by
  have hgd : get_domain_history db false = (sortKeyDesc DomainRow.check_date db).take 100 := rfl
  refine ⟨?_, ?_, ?_⟩
  · rw [hgd, List.length_take, length_sortKeyDesc]
  · rw [hgd]
    exact List.Pairwise.sublist (List.take_sublist 100 _)
      (pairwise_sortKeyDesc DomainRow.check_date db)
  · intro h
    rw [hgd, List.length_take, length_sortKeyDesc]
    omega

set_option maxRecDepth 40000 in
/-- C9 witness: after upserting 150 rows with pairwise-distinct keys into an
empty store, history returns exactly 100 records. -/
theorem history_bounded_and_sorted_witness :
    150 ≤ ((List.range 150).foldl
        (fun db i => save_to_db db
          ⟨String.mk [Char.ofNat (100 + i)], ".ar", "available", none, none, none, none⟩ i)
        []).length ∧
    (get_domain_history
        ((List.range 150).foldl
          (fun db i => save_to_db db
            ⟨String.mk [Char.ofNat (100 + i)], ".ar", "available", none, none, none, none⟩ i)
          [])
        false).length = 100 :=
  ⟨by decide, (history_bounded_and_sorted _).2.2 (by decide)⟩

/-- C5: zone resolution over a list of (nonempty) zones scans them in
descending length order and returns, for the first suffix hit, the matched
zone together with the domain with that suffix stripped; the matched zone is
a longest matching suffix, never a shorter one. -/
theorem zone_resolution_longest_suffix (Z : List String) (d : String)
    (hZ : ∀ z ∈ Z, z.length ≠ 0) (n z : String)
    (h : resolveSuffix Z d = some (n, z)) :
    z ∈ Z ∧ strEndsWith d z = true ∧
      (∀ w ∈ Z, strEndsWith d w = true → w.length ≤ z.length) ∧
      n = strTake d (d.length - z.length) := by
  unfold resolveSuffix at h
  cases hf : (sortKeyDesc String.length Z).find? (fun w => strEndsWith d w) with
  | none =>
      rw [hf] at h
      exact Option.noConfusion h
  | some z0 =>
      rw [hf] at h
      injection h with h
      injection h with h1 h2
      subst h1
      subst h2
      have hzZ : z0 ∈ Z := (mem_sortKeyDesc String.length z0 Z).mp (List.mem_of_find?_eq_some hf)
      have hsuf : strEndsWith d z0 = true := by
        have := List.find?_some hf
        simpa using this
      refine ⟨hzZ, hsuf, ?_, ?_⟩
      · intro w hw hwsuf
        exact find?_max_key String.length _ (pairwise_sortKeyDesc String.length Z) _ z0 hf
          w ((mem_sortKeyDesc String.length w Z).mpr hw) (by simpa using hwsuf)
      · rw [pyStripSuffix, if_neg (hZ z0 hzZ)]

/-- C5 witness: with zones .ar and .com.ar, the domain foo.com.ar resolves
to name foo and zone .com.ar, the longest suffix, not .ar. -/
theorem zone_resolution_longest_suffix_witness :
    (∀ z ∈ [".ar", ".com.ar"], z.length ≠ 0) ∧
    resolveSuffix [".ar", ".com.ar"] "foo.com.ar" = some ("foo", ".com.ar") ∧
    ((".com.ar" : String) ∈ [".ar", ".com.ar"] ∧
      strEndsWith "foo.com.ar" ".com.ar" = true ∧
      (∀ w ∈ [".ar", ".com.ar"], strEndsWith "foo.com.ar" w = true →
        w.length ≤ (".com.ar" : String).length) ∧
      "foo" = strTake "foo.com.ar" (("foo.com.ar" : String).length - (".com.ar" : String).length)) :=
  ⟨by decide, by decide,
   zone_resolution_longest_suffix [".ar", ".com.ar"] "foo.com.ar" (by decide) "foo" ".com.ar"
     (by decide)⟩

/-- C6 counterexample: for the lookup of domain ab with zone .xyz the
resolved zone .xyz is not a known zone, yet the request fails with the
invalid-domain error (name length 2 < 3), not with the invalid-zone error
the claim requires for every unknown-zone lookup. -/
theorem validation_precedence_counterexample :
    ((".xyz" : String) ∉ valid_zones) ∧
    check_domain_endpoint (fun _ _ => FetchOutcome.available) 0 ⟨[], [], 0, false⟩ "ab"
      (some ".xyz") = (.clientError .invalidDomain, ⟨[], [], 0, false⟩) :=
  ⟨by decide, by decide⟩

/-- C6 (amended): a resolved name shorter than 3 characters is rejected with
the invalid-domain error, and a resolved name of length at least 3 with an
unknown resolved zone is rejected with the invalid-zone error (when both
fail, the domain check takes precedence); in both cases the state is
returned untouched, so the rejection happens before any store, queue or
network access. -/
theorem validation_rejects_before_any_access
    (oracle : String → String → FetchOutcome) (now : Nat) (s : SysState)
    (d : String) (z : Option String) :
    ((resolveZone d z).1.length < 3 →
        check_domain_endpoint oracle now s d z = (.clientError .invalidDomain, s)) ∧
    (3 ≤ (resolveZone d z).1.length → (resolveZone d z).2 ∉ valid_zones →
        check_domain_endpoint oracle now s d z = (.clientError .invalidZone, s)) := by
  constructor
  · intro h
    apply endpoint_invalid
    simp only [validateLookup]
    rw [if_pos h]
  · intro h1 h2
    apply endpoint_invalid
    simp only [validateLookup]
    rw [if_neg (by omega), if_neg h2]

/-- C6 witness: lookup of ab with zone .com.ar is rejected as an invalid
domain, and lookup of abcd with zone .xyz as an invalid zone, both leaving
the state untouched. -/
theorem validation_rejects_before_any_access_witness :
    check_domain_endpoint (fun _ _ => FetchOutcome.available) 0 ⟨[], [], 0, false⟩ "ab"
        (some ".com.ar") = (.clientError .invalidDomain, ⟨[], [], 0, false⟩) ∧
    check_domain_endpoint (fun _ _ => FetchOutcome.available) 0 ⟨[], [], 0, false⟩ "abcd"
        (some ".xyz") = (.clientError .invalidZone, ⟨[], [], 0, false⟩) :=
  ⟨(validation_rejects_before_any_access (fun _ _ => FetchOutcome.available) 0
      ⟨[], [], 0, false⟩ "ab" (some ".com.ar")).1 (by decide),
   (validation_rejects_before_any_access (fun _ _ => FetchOutcome.available) 0
      ⟨[], [], 0, false⟩ "abcd" (some ".xyz")).2 (by decide) (by decide)⟩

/-- C3 counterexample: a record whose age is exactly the freshness window
(checked at 0, looked up at 3600) is not fresh in the sense of the claim
(age < window fails), yet the lookup enqueues no refresh request, against
the claim that a non-fresh record triggers exactly one enqueue. -/
theorem freshness_boundary_counterexample :
    ¬ ((3600 : Nat) - 0 < 3600) ∧
    (check_domain_endpoint (fun _ _ => FetchOutcome.available) 3600
        ⟨[⟨"foo", ".com.ar", "available", none, none, none, none, 0⟩], [], 0, false⟩
        "foo" (some ".com.ar")).2.queue = [] :=
  ⟨by decide, by decide⟩

/-- C3 (amended): a lookup that finds a stored record returns it unchanged
with no synchronous fetch and no database write; a refresh request for the
key is enqueued exactly when the age strictly exceeds the 3600-second
window, so a record of age exactly 3600 is served with no enqueue. -/
theorem fresh_serves_stale_enqueues
    (oracle : String → String → FetchOutcome) (now : Nat) (s : SysState)
    (d : String) (z : Option String) (fd fz : String) (r : DomainRow)
    (hval : validateLookup d z = .ok (fd, fz))
    (hget : get_from_db s.db s.readFails fd fz = some r) :
    (check_domain_endpoint oracle now s d z).1 = .response (responseOfRow r) ∧
    (check_domain_endpoint oracle now s d z).2.db = s.db ∧
    (check_domain_endpoint oracle now s d z).2.fetchCount = s.fetchCount ∧
    (check_domain_endpoint oracle now s d z).2.queue =
      (if now - r.check_date > 3600 then s.queue ++ [(fd, fz)] else s.queue) := by
  rw [endpoint_hit oracle now s d z fd fz r hval hget]
  refine ⟨rfl, ?_, ?_, ?_⟩ <;> split <;> rfl

/-- C3 witness: a stale record (age 7201 > 3600) is served from the store
and exactly one refresh request is enqueued, with no fetch and no write. -/
theorem fresh_serves_stale_enqueues_witness :
    (check_domain_endpoint (fun _ _ => FetchOutcome.available) 7201
        ⟨[⟨"bar", ".com.ar", "registered", some "o", some "doc", some "2020", some "2030", 0⟩],
         [], 5, false⟩ "bar.com.ar" none).1 =
      .response (responseOfRow
        ⟨"bar", ".com.ar", "registered", some "o", some "doc", some "2020", some "2030", 0⟩) ∧
    (check_domain_endpoint (fun _ _ => FetchOutcome.available) 7201
        ⟨[⟨"bar", ".com.ar", "registered", some "o", some "doc", some "2020", some "2030", 0⟩],
         [], 5, false⟩ "bar.com.ar" none).2.db =
      (⟨[⟨"bar", ".com.ar", "registered", some "o", some "doc", some "2020", some "2030", 0⟩],
        [], 5, false⟩ : SysState).db ∧
    (check_domain_endpoint (fun _ _ => FetchOutcome.available) 7201
        ⟨[⟨"bar", ".com.ar", "registered", some "o", some "doc", some "2020", some "2030", 0⟩],
         [], 5, false⟩ "bar.com.ar" none).2.fetchCount =
      (⟨[⟨"bar", ".com.ar", "registered", some "o", some "doc", some "2020", some "2030", 0⟩],
        [], 5, false⟩ : SysState).fetchCount ∧
    (check_domain_endpoint (fun _ _ => FetchOutcome.available) 7201
        ⟨[⟨"bar", ".com.ar", "registered", some "o", some "doc", some "2020", some "2030", 0⟩],
         [], 5, false⟩ "bar.com.ar" none).2.queue =
      (if (7201 : Nat) -
          (⟨"bar", ".com.ar", "registered", some "o", some "doc", some "2020", some "2030",
            0⟩ : DomainRow).check_date > 3600 then
        (⟨[⟨"bar", ".com.ar", "registered", some "o", some "doc", some "2020", some "2030", 0⟩],
          [], 5, false⟩ : SysState).queue ++ [("bar", ".com.ar")]
      else
        (⟨[⟨"bar", ".com.ar", "registered", some "o", some "doc", some "2020", some "2030", 0⟩],
          [], 5, false⟩ : SysState).queue) :=
  fresh_serves_stale_enqueues (fun _ _ => FetchOutcome.available) 7201
    ⟨[⟨"bar", ".com.ar", "registered", some "o", some "doc", some "2020", some "2030", 0⟩],
     [], 5, false⟩ "bar.com.ar" none "bar" ".com.ar"
    ⟨"bar", ".com.ar", "registered", some "o", some "doc", some "2020", some "2030", 0⟩
    (by decide) (by decide)

/-- C4 counterexample: with the store read failing and a row actually
present for key (baz, .com.ar), the lookup is not surfaced as a failure: it
answers with a freshly fetched record and performs one external fetch,
treating the failed read as a cache miss. -/
theorem store_read_failure_counterexample :
    (check_domain_endpoint (fun _ _ => FetchOutcome.available) 50
        ⟨[⟨"baz", ".com.ar", "registered", some "x", none, none, none, 10⟩], [], 0, true⟩
        "baz" (some ".com.ar")).1 =
      .response ⟨"baz", ".com.ar", "available", [], 50⟩ ∧
    (check_domain_endpoint (fun _ _ => FetchOutcome.available) 50
        ⟨[⟨"baz", ".com.ar", "registered", some "x", none, none, none, 10⟩], [], 0, true⟩
        "baz" (some ".com.ar")).2.fetchCount = 1 :=
  ⟨by decide, by decide⟩

/-- C4 (amended): when the record-store read fails, get_from_db swallows the
error and returns none, so the lookup treats the key as a cache miss: it
enqueues a refresh, performs a synchronous external fetch, and (when the
fetch succeeds) returns the fresh record to the caller instead of a failed
lookup. -/
theorem store_read_failure_treated_as_miss
    (oracle : String → String → FetchOutcome) (now : Nat) (s : SysState)
    (d : String) (z : Option String) (fd fz : String) (info : DomainInfo)
    (hrf : s.readFails = true)
    (hval : validateLookup d z = .ok (fd, fz))
    (hok : check_domain fd fz (oracle fd fz) = .ok info) :
    check_domain_endpoint oracle now s d z =
      (.response ⟨fd, fz, info.status,
         mkDetails info.status info.owner info.document_id info.registration_date
           info.expiration_date, now⟩,
       ⟨save_to_db s.db info now, s.queue ++ [(fd, fz)], s.fetchCount + 1, s.readFails⟩) :=
  endpoint_miss_ok oracle now s d z fd fz info hval (by rw [get_from_db, if_pos hrf]) hok

/-- C4 witness: a lookup with a failing store read answers with the fetched
record and counts one external fetch. -/
theorem store_read_failure_treated_as_miss_witness :
    check_domain_endpoint (fun _ _ => FetchOutcome.registered (some "o") none none none) 40
        ⟨[], [], 2, true⟩ "qqq" (some ".ar") =
      (.response ⟨"qqq", ".ar", "registered",
         mkDetails "registered" (some "o") none none none, 40⟩,
       ⟨save_to_db []
          ⟨"qqq", ".ar", "registered", some "o", none, none, none⟩ 40,
        [] ++ [("qqq", ".ar")], 2 + 1, true⟩) :=
  store_read_failure_treated_as_miss
    (fun _ _ => FetchOutcome.registered (some "o") none none none) 40
    ⟨[], [], 2, true⟩ "qqq" (some ".ar") "qqq" ".ar"
    ⟨"qqq", ".ar", "registered", some "o", none, none, none⟩
    (by decide) (by decide) (by decide)

/-- C7: when the worker dequeues a key whose stored record is fresh again
(age under 3600 seconds), it performs no external fetch and the stored
record afterwards is the old record with only check_date renewed: status,
owner, document_id, registration_date and expiration_date are unchanged. -/
theorem worker_fresh_renews_only_check_date
    (oracle : String → String → FetchOutcome) (now : Nat) (s : SysState)
    (d z : String) (rest : List (String × String)) (r : DomainRow)
    (hq : s.queue = (d, z) :: rest)
    (hget : get_from_db s.db s.readFails d z = some r)
    (hfresh : now - r.check_date < 3600) :
    (process_queue_worker_step oracle now s).fetchCount = s.fetchCount ∧
    (process_queue_worker_step oracle now s).queue = rest ∧
    get_from_db (process_queue_worker_step oracle now s).db s.readFails d z =
      some { r with check_date := now } := by
  have hrf : s.readFails = false := by
    by_contra hc
    rw [Bool.not_eq_false] at hc
    rw [get_from_db, if_pos hc] at hget
    exact Option.noConfusion hget
  rw [worker_step_fresh oracle now s d z rest r hq hget hfresh]
  refine ⟨rfl, rfl, ?_⟩
  rw [get_from_db, if_neg (by simp [hrf]), find?_renew]
  rw [get_from_db, if_neg (by simp [hrf])] at hget
  rw [hget]
  rfl

/-- C7 witness: the worker pops (seven, .ar) whose record is 1000 seconds
old, skips the fetch, and leaves every field but check_date unchanged. -/
theorem worker_fresh_renews_only_check_date_witness :
    (process_queue_worker_step (fun _ _ => FetchOutcome.available) 2000
        ⟨[⟨"seven", ".ar", "registered", some "own", some "20-1", some "2019", some "2029",
           1000⟩], [("seven", ".ar")], 4, false⟩).fetchCount =
      (⟨[⟨"seven", ".ar", "registered", some "own", some "20-1", some "2019", some "2029",
          1000⟩], [("seven", ".ar")], 4, false⟩ : SysState).fetchCount ∧
    (process_queue_worker_step (fun _ _ => FetchOutcome.available) 2000
        ⟨[⟨"seven", ".ar", "registered", some "own", some "20-1", some "2019", some "2029",
           1000⟩], [("seven", ".ar")], 4, false⟩).queue = [] ∧
    get_from_db
        (process_queue_worker_step (fun _ _ => FetchOutcome.available) 2000
          ⟨[⟨"seven", ".ar", "registered", some "own", some "20-1", some "2019", some "2029",
             1000⟩], [("seven", ".ar")], 4, false⟩).db
        (⟨[⟨"seven", ".ar", "registered", some "own", some "20-1", some "2019", some "2029",
            1000⟩], [("seven", ".ar")], 4, false⟩ : SysState).readFails "seven" ".ar" =
      some { (⟨"seven", ".ar", "registered", some "own", some "20-1", some "2019", some "2029",
          1000⟩ : DomainRow) with check_date := 2000 } :=
  worker_fresh_renews_only_check_date (fun _ _ => FetchOutcome.available) 2000
    ⟨[⟨"seven", ".ar", "registered", some "own", some "20-1", some "2019", some "2029", 1000⟩],
     [("seven", ".ar")], 4, false⟩ "seven" ".ar" []
    ⟨"seven", ".ar", "registered", some "own", some "20-1", some "2019", some "2029", 1000⟩
    (by decide) (by decide) (by decide)

/-- C1 counterexample: for a first-ever lookup of (abc, .com.ar) whose page
classifies neither as available nor as registered, the endpoint raises a
server error, and even after the worker drains the queued request the store
is still empty: no record with status unknown (or any record at all) is
stored for the key. -/
theorem classification_failure_counterexample :
    (check_domain_endpoint (fun _ _ => FetchOutcome.classifyFail) 5 ⟨[], [], 0, false⟩
        "abc" (some ".com.ar")).1 =
      .serverError
        "Error verificando dominio: No se pudo determinar si el dominio está disponible" ∧
    (process_queue_worker_step (fun _ _ => FetchOutcome.classifyFail) 6
        (check_domain_endpoint (fun _ _ => FetchOutcome.classifyFail) 5 ⟨[], [], 0, false⟩
          "abc" (some ".com.ar")).2).db = [] :=
  ⟨by decide, by decide⟩

/-- C1 (amended): a lookup whose fetched page classifies as neither
available nor registered raises instead of storing a status-unknown record:
the synchronous path answers with a server error and writes nothing, and
the worker, processing the refresh request enqueued by the same lookup,
catches the error and also writes nothing, so the store is unchanged. -/
theorem classification_failure_is_error_not_unknown
    (now1 now2 : Nat) (s : SysState) (d : String) (z : Option String) (fd fz : String)
    (hval : validateLookup d z = .ok (fd, fz))
    (hrf : s.readFails = false)
    (hmiss : get_from_db s.db false fd fz = none)
    (hq : s.queue = []) :
    (check_domain_endpoint (fun _ _ => FetchOutcome.classifyFail) now1 s d z).1 =
      .serverError
        "Error verificando dominio: No se pudo determinar si el dominio está disponible" ∧
    (check_domain_endpoint (fun _ _ => FetchOutcome.classifyFail) now1 s d z).2.db = s.db ∧
    (process_queue_worker_step (fun _ _ => FetchOutcome.classifyFail) now2
        (check_domain_endpoint (fun _ _ => FetchOutcome.classifyFail) now1 s d z).2).db =
      s.db ∧
    (process_queue_worker_step (fun _ _ => FetchOutcome.classifyFail) now2
        (check_domain_endpoint (fun _ _ => FetchOutcome.classifyFail) now1 s d z).2).queue =
      [] := by
  have hmiss' : get_from_db s.db s.readFails fd fz = none := by rw [hrf]; exact hmiss
  rw [endpoint_miss_err (fun _ _ => FetchOutcome.classifyFail) now1 s d z fd fz _ hval
    hmiss' rfl]
  dsimp only
  rw [worker_step_miss_err (fun _ _ => FetchOutcome.classifyFail) now2
    ⟨s.db, s.queue ++ [(fd, fz)], s.fetchCount + 1, s.readFails⟩ fd fz [] _
    (by rw [hq]; rfl) hmiss' rfl]
  exact ⟨rfl, rfl, rfl, rfl⟩

/-- C1 witness: the unclassifiable page for (klm, .net.ar) yields a server
error and an unchanged store through both the endpoint and the worker. -/
theorem classification_failure_witness :
    (check_domain_endpoint (fun _ _ => FetchOutcome.classifyFail) 11
        ⟨[], [], 9, false⟩ "klm" (some ".net.ar")).1 =
      .serverError
        "Error verificando dominio: No se pudo determinar si el dominio está disponible" ∧
    (check_domain_endpoint (fun _ _ => FetchOutcome.classifyFail) 11
        ⟨[], [], 9, false⟩ "klm" (some ".net.ar")).2.db =
      (⟨[], [], 9, false⟩ : SysState).db ∧
    (process_queue_worker_step (fun _ _ => FetchOutcome.classifyFail) 12
        (check_domain_endpoint (fun _ _ => FetchOutcome.classifyFail) 11
          ⟨[], [], 9, false⟩ "klm" (some ".net.ar")).2).db =
      (⟨[], [], 9, false⟩ : SysState).db ∧
    (process_queue_worker_step (fun _ _ => FetchOutcome.classifyFail) 12
        (check_domain_endpoint (fun _ _ => FetchOutcome.classifyFail) 11
          ⟨[], [], 9, false⟩ "klm" (some ".net.ar")).2).queue = [] :=
  classification_failure_is_error_not_unknown 11 12 ⟨[], [], 9, false⟩ "klm"
    (some ".net.ar") "klm" ".net.ar" (by decide) (by decide) (by decide) (by decide)

/-- C8: every record the lookup endpoint answers with, and every record the
history route returns, has an empty details dictionary unless its status is
registered: owner, document_id, registration_date and expiration_date are
only ever populated for registered records. -/
theorem details_only_when_registered
    (oracle : String → String → FetchOutcome) (now : Nat) (s : SysState)
    (d : String) (z : Option String) (resp : DomainResponse)
    (db : List DomainRow) (rf : Bool) :
    ((check_domain_endpoint oracle now s d z).1 = .response resp →
        resp.status ≠ "registered" → resp.details = []) ∧
    (∀ fr ∈ get_history db rf, fr.status ≠ "registered" → fr.details = []) := by
  constructor
  · intro hres hst
    cases hv : validateLookup d z with
    | error e =>
        rw [endpoint_invalid oracle now s d z e hv] at hres
        exact LookupResult.noConfusion hres
    | ok p =>
        obtain ⟨fd, fz⟩ := p
        cases hg : get_from_db s.db s.readFails fd fz with
        | some r =>
            rw [endpoint_hit oracle now s d z fd fz r hv hg] at hres
            dsimp only at hres
            injection hres with h
            subst h
            dsimp only [responseOfRow] at hst ⊢
            simp only [mkDetails]
            rw [if_neg hst]
        | none =>
            cases hc : check_domain fd fz (oracle fd fz) with
            | ok info =>
                rw [endpoint_miss_ok oracle now s d z fd fz info hv hg hc] at hres
                dsimp only at hres
                injection hres with h
                subst h
                dsimp only at hst ⊢
                simp only [mkDetails]
                rw [if_neg hst]
            | error msg =>
                rw [endpoint_miss_err oracle now s d z fd fz msg hv hg hc] at hres
                exact LookupResult.noConfusion hres
  · intro fr hfr hst
    simp only [get_history] at hfr
    rcases List.mem_map.mp hfr with ⟨r, hr, hfr2⟩
    subst hfr2
    dsimp only [responseOfRow] at hst ⊢
    simp only [mkDetails]
    rw [if_neg hst]

/-- C8 witness: the answer for a first lookup of an available domain has
status available and an empty details dictionary. -/
theorem details_only_when_registered_witness :
    (check_domain_endpoint (fun _ _ => FetchOutcome.available) 7 ⟨[], [], 0, false⟩ "qux"
        (some ".com.ar")).1 = .response ⟨"qux", ".com.ar", "available", [], 7⟩ ∧
    ((⟨"qux", ".com.ar", "available", [], 7⟩ : DomainResponse).status ≠ "registered") ∧
    (⟨"qux", ".com.ar", "available", [], 7⟩ : DomainResponse).details = [] :=
  ⟨by decide, by decide,
   (details_only_when_registered (fun _ _ => FetchOutcome.available) 7 ⟨[], [], 0, false⟩
      "qux" (some ".com.ar") ⟨"qux", ".com.ar", "available", [], 7⟩ [] false).1
     (by decide) (by decide)⟩

/-- C2: for a previously-unseen key, a first lookup, a worker pass over the
refresh request that lookup enqueued, and a second lookup within the
freshness window perform exactly one external fetch in total: the first
call fetches and writes the record, the worker revalidates and only renews
check_date, and the second call answers from the now-fresh cached record
with no further fetch and no further enqueue. -/
theorem lookup_twice_single_fetch
    (oracle : String → String → FetchOutcome) (now1 noww now2 : Nat)
    (db0 : List DomainRow) (c0 : Nat) (d : String) (z : Option String)
    (fd fz : String) (info : DomainInfo)
    (hval : validateLookup d z = .ok (fd, fz))
    (hmiss : db0.find? (rowKeyMatches fd fz) = none)
    (hok : check_domain fd fz (oracle fd fz) = .ok info)
    (hw : noww - now1 < 3600) (h2 : ¬ now2 - noww > 3600) :
    (twoLookups oracle now1 noww now2 ⟨db0, [], c0, false⟩ d z).2.fetchCount = c0 + 1 ∧
    (twoLookups oracle now1 noww now2 ⟨db0, [], c0, false⟩ d z).2.queue = [] ∧
    (twoLookups oracle now1 noww now2 ⟨db0, [], c0, false⟩ d z).1 =
      .response (responseOfRow { rowOfInfo info now1 with check_date := noww }) ∧
    get_from_db (check_domain_endpoint oracle now1 ⟨db0, [], c0, false⟩ d z).2.db false fd fz =
      some (rowOfInfo info now1) := by
  obtain ⟨hd, hz⟩ := check_domain_ok_key fd fz (oracle fd fz) info hok
  have hmiss0 : get_from_db db0 false fd fz = none := by
    rw [get_from_db, if_neg (by simp)]
    exact hmiss
  have hsave := get_after_save db0 info now1 (by rw [hd, hz]; exact hmiss)
  rw [hd, hz] at hsave
  have hfind : (save_to_db db0 info now1).find? (rowKeyMatches fd fz) =
      some (rowOfInfo info now1) := hsave
  have e1 : check_domain_endpoint oracle now1 ⟨db0, [], c0, false⟩ d z =
      (.response ⟨fd, fz, info.status,
         mkDetails info.status info.owner info.document_id info.registration_date
           info.expiration_date, now1⟩,
       ⟨save_to_db db0 info now1, [(fd, fz)], c0 + 1, false⟩) := by
    rw [endpoint_miss_ok oracle now1 ⟨db0, [], c0, false⟩ d z fd fz info hval hmiss0 hok]
    rfl
  have e2 : process_queue_worker_step oracle noww
      (⟨save_to_db db0 info now1, [(fd, fz)], c0 + 1, false⟩ : SysState) =
      ⟨renew_check_date (save_to_db db0 info now1) fd fz noww, [], c0 + 1, false⟩ := by
    rw [worker_step_fresh oracle noww
      ⟨save_to_db db0 info now1, [(fd, fz)], c0 + 1, false⟩ fd fz [] (rowOfInfo info now1)
      rfl hsave hw]
  have hget2 : get_from_db (renew_check_date (save_to_db db0 info now1) fd fz noww) false
      fd fz = some { rowOfInfo info now1 with check_date := noww } := by
    show (renew_check_date (save_to_db db0 info now1) fd fz noww).find?
        (rowKeyMatches fd fz) = some { rowOfInfo info now1 with check_date := noww }
    rw [find?_renew, hfind]
    rfl
  have e3 : check_domain_endpoint oracle now2
      (⟨renew_check_date (save_to_db db0 info now1) fd fz noww, [], c0 + 1, false⟩ :
        SysState) d z =
      (.response (responseOfRow { rowOfInfo info now1 with check_date := noww }),
       ⟨renew_check_date (save_to_db db0 info now1) fd fz noww, [], c0 + 1, false⟩) := by
    rw [endpoint_hit oracle now2
      ⟨renew_check_date (save_to_db db0 info now1) fd fz noww, [], c0 + 1, false⟩ d z fd fz
      { rowOfInfo info now1 with check_date := noww } hval hget2]
    rw [if_neg h2]
  refine ⟨?_, ?_, ?_, ?_⟩
  · unfold twoLookups
    rw [e1]
    dsimp only
    rw [e2, e3]
  · unfold twoLookups
    rw [e1]
    dsimp only
    rw [e2, e3]
  · unfold twoLookups
    rw [e1]
    dsimp only
    rw [e2, e3]
  · rw [e1]
    dsimp only
    exact hsave

/-- C2 witness: a first lookup of wit.com.ar at time 100, a worker pass at
200, and a second lookup at 300 end with one fetch, an empty queue, and the
cached record served. -/
theorem lookup_twice_single_fetch_witness :
    (twoLookups (fun _ _ => FetchOutcome.available) 100 200 300 ⟨[], [], 0, false⟩
        "wit.com.ar" none).2.fetchCount = 0 + 1 ∧
    (twoLookups (fun _ _ => FetchOutcome.available) 100 200 300 ⟨[], [], 0, false⟩
        "wit.com.ar" none).2.queue = [] ∧
    (twoLookups (fun _ _ => FetchOutcome.available) 100 200 300 ⟨[], [], 0, false⟩
        "wit.com.ar" none).1 =
      .response (responseOfRow
        { rowOfInfo ⟨"wit", ".com.ar", "available", none, none, none, none⟩ 100 with
            check_date := 200 }) ∧
    get_from_db
        (check_domain_endpoint (fun _ _ => FetchOutcome.available) 100 ⟨[], [], 0, false⟩
          "wit.com.ar" none).2.db false "wit" ".com.ar" =
      some (rowOfInfo ⟨"wit", ".com.ar", "available", none, none, none, none⟩ 100) :=
  lookup_twice_single_fetch (fun _ _ => FetchOutcome.available) 100 200 300 [] 0
    "wit.com.ar" none "wit" ".com.ar" ⟨"wit", ".com.ar", "available", none, none, none, none⟩
    (by decide) (by decide) (by decide) (by decide) (by decide)

end NicarCheck
